import Mathlib

/-!
Shallow embedding of the catalog-synchronization layer of the Daily Acai
storefront (`src/services/toeat-api.ts`, `src/config/toeat-mappings.ts`,
`src/types/toeat.ts`), together with theorems settling the frozen claims
about it.

Conventions of the embedding:
* TypeScript interfaces become Lean structures; optional fields become
  `Option`.
* Stateful code (the module-level token cache) becomes explicit state
  passing; the network is an explicit input (per-attempt outcomes).
* A thrown exception becomes `Except.error`; the JavaScript value
  `undefined` thrown by the trailing `throw lastError` of `fetchWithRetry`
  is modelled by `Option` on the error side.
* JavaScript truthiness on the cached token / expiry (empty string and the
  number 0 are falsy) is modelled explicitly.
* Prices are integers (the catalog uses integer currency units);
  `Math.round(p * 0.85)` on a nonnegative integer `p` is the exact
  rational rounding `(85 * p + 50) / 100` (floor division).
-/

deriving instance DecidableEq for Except

namespace DailyAcai

/-- Type `InventoryStatus` from `src/types/toeat.ts`. -/
inductive InventoryStatus where
  | IN_STOCK
  | QUANTITY
  | OUT_OF_STOCK
deriving DecidableEq, Repr

/-- Structure `ToteatInventoryItem` from `src/types/toeat.ts`. -/
structure ToteatInventoryItem where
  guid : String
  status : InventoryStatus
  quantity : Option Nat := none
deriving DecidableEq, Repr

/-- Structure `ToteatProduct` from `src/types/toeat.ts` (the unused `modifiers` and
`inventory` fields are dropped; `description` is optional). -/
structure ToteatProduct where
  guid : String
  name : String := ""
  description : Option String := none
  category : String := ""
  price : Nat
  availability : Bool := true
deriving DecidableEq, Repr

/-- Structure `ToteatShiftStatus` from `src/types/toeat.ts`. -/
structure ToteatShiftStatus where
  is_open : Bool
  shift_id : Option String := none
  started_at : Option String := none
deriving DecidableEq, Repr

/-- Structure `ToteatAuthResponse` from `src/types/toeat.ts`. -/
structure ToteatAuthResponse where
  access_token : String
  expires_in : Int
  token_type : String := ""
deriving DecidableEq, Repr

/-- Type `ProductCategory` from `src/types/toeat.ts`. -/
inductive ProductCategory where
  | bowl_size
  | topping
deriving DecidableEq, Repr

/-- Structure `ProductMapping` from `src/types/toeat.ts`. -/
structure ProductMapping where
  dailyAcaiId : String
  toeatGuid : String
  category : ProductCategory
  name : Option String := none
deriving DecidableEq, Repr

/-- Structure `BowlSize` (UI) from `src/types/toeat.ts`. -/
structure BowlSize where
  id : String
  name : String
  size : String
  originalPrice : Nat
  price : Nat
  description : String
  popular : Bool := false
  availability : Bool
  toeatGuid : Option String := none
deriving DecidableEq, Repr

/-- Structure `Topping` (UI) from `src/types/toeat.ts`. -/
structure Topping where
  id : String
  name : String
  category : String
  popular : Bool := false
  emoji : Option String := none
  availability : Bool
  toeatGuid : Option String := none
deriving DecidableEq, Repr

/-- Constant `PRODUCT_MAPPINGS` from `src/config/toeat-mappings.ts`: the fixed
ID-mapping table between Daily Acai ids and Toeat product GUIDs. -/
def PRODUCT_MAPPINGS : List ProductMapping := [
  ⟨"go", "PLACEHOLDER_GUID_GO_10_10", .bowl_size, some "Go 10/10 (290ml)"⟩,
  ⟨"tipico", "PLACEHOLDER_GUID_TIPICO", .bowl_size, some "Típico (350ml)"⟩,
  ⟨"clasico", "PLACEHOLDER_GUID_CLASICO", .bowl_size, some "Bowl Clásico de la Suerte (420ml)"⟩,
  ⟨"granola-crunchy", "PLACEHOLDER_GUID_GRANOLA_CRUNCHY", .topping, some "Granola crunchy sin azúcar"⟩,
  ⟨"granola-avena", "PLACEHOLDER_GUID_GRANOLA_AVENA", .topping, some "Granola avena miel"⟩,
  ⟨"cacao-nibs", "PLACEHOLDER_GUID_CACAO_NIBS", .topping, some "Cacao nibs"⟩,
  ⟨"banana", "PLACEHOLDER_GUID_BANANA", .topping, some "Banana"⟩,
  ⟨"frutilla", "PLACEHOLDER_GUID_FRUTILLA", .topping, some "Frutilla"⟩,
  ⟨"arandanos", "PLACEHOLDER_GUID_ARANDANOS", .topping, some "Arándanos"⟩,
  ⟨"mango", "PLACEHOLDER_GUID_MANGO", .topping, some "Mango"⟩,
  ⟨"kiwi", "PLACEHOLDER_GUID_KIWI", .topping, some "Kiwi"⟩,
  ⟨"pina", "PLACEHOLDER_GUID_PINA", .topping, some "Piña"⟩,
  ⟨"miel", "PLACEHOLDER_GUID_MIEL", .topping, some "Miel"⟩,
  ⟨"mantequilla-mani", "PLACEHOLDER_GUID_MANTEQUILLA_MANI", .topping, some "Mantequilla de maní"⟩,
  ⟨"mantequilla-pistachos", "PLACEHOLDER_GUID_MANTEQUILLA_PISTACHOS", .topping, some "Mantequilla de pistachos"⟩]

/-- Constant `defaultBowlSizes` from `mapToeatProductsToBowlBuilder`
(`src/services/toeat-api.ts`): the hardcoded size entries. -/
def defaultBowlSizes : List BowlSize := [
  { id := "go", name := "Go 10/10", size := "290 ml", originalPrice := 6500,
    price := 5500, description := "Toppings infinitos", availability := true },
  { id := "tipico", name := "Típico", size := "350 ml", originalPrice := 7600,
    price := 6500, description := "El equilibrio perfecto", popular := true,
    availability := true },
  { id := "clasico", name := "Bowl Clásico de la Suerte", size := "420 ml",
    originalPrice := 9100, price := 7700, description := "Máxima indulgencia",
    availability := true }]

/-- Constant `defaultToppings` from `mapToeatProductsToBowlBuilder`
(`src/services/toeat-api.ts`): the twelve hardcoded add-on entries. -/
def defaultToppings : List Topping := [
  { id := "granola-crunchy", name := "Granola crunchy sin azúcar", category := "🥣 Crunch", availability := true },
  { id := "granola-avena", name := "Granola avena miel", category := "🥣 Crunch", availability := true },
  { id := "cacao-nibs", name := "Cacao nibs", category := "🥣 Crunch", availability := true },
  { id := "banana", name := "Banana", category := "🍓 Frutas", availability := true },
  { id := "frutilla", name := "Frutilla", category := "🍓 Frutas", availability := true },
  { id := "arandanos", name := "Arándanos", category := "🍓 Frutas", availability := true },
  { id := "mango", name := "Mango", category := "🍓 Frutas", availability := true },
  { id := "kiwi", name := "Kiwi", category := "🍓 Frutas", availability := true },
  { id := "pina", name := "Piña", category := "🍓 Frutas", availability := true },
  { id := "miel", name := "Miel", category := "🍬 Dulces Naturales", availability := true },
  { id := "mantequilla-mani", name := "Mantequilla de maní", category := "🍬 Dulces Naturales", availability := true },
  { id := "mantequilla-pistachos", name := "Mantequilla de pistachos", category := "🍬 Dulces Naturales", availability := true }]

/-- Value of `Math.round(p * 0.85)` for a nonnegative integer price `p`: exact
rational rounding, half away from zero, computed with floor division. -/
def jsRound085 (p : Nat) : Nat := (85 * p + 50) / 100

/-- Expression `inventoryItem?.status !== "OUT_OF_STOCK"` — availability of a mapped
entry given the (optional) matched inventory item; `undefined` compares
not-equal, so a missing item yields `true`. -/
def availabilityOf : Option ToteatInventoryItem → Bool
  | none => true
  | some i => i.status ≠ InventoryStatus.OUT_OF_STOCK

/-- Per-entry body of the `defaultBowlSizes.map` callback inside
`mapToeatProductsToBowlBuilder`. -/
def mapBowlSize (toeatProducts : List ToteatProduct)
    (inventory : List ToteatInventoryItem) (defaultBowl : BowlSize) : BowlSize :=
  match PRODUCT_MAPPINGS.find? (fun m =>
      m.dailyAcaiId == defaultBowl.id && m.category == ProductCategory.bowl_size) with
  | none => defaultBowl
  | some mapping =>
    let toeatProduct := toeatProducts.find? (fun p => p.guid == mapping.toeatGuid)
    let inventoryItem := inventory.find? (fun i => i.guid == mapping.toeatGuid)
    match toeatProduct with
    | none => defaultBowl
    | some tp =>
      let originalPrice := tp.price
      let discountedPrice := jsRound085 originalPrice
      { defaultBowl with
          price := discountedPrice,
          originalPrice := originalPrice,
          availability := availabilityOf inventoryItem,
          toeatGuid := some tp.guid }

/-- Per-entry body of the `defaultToppings.map` callback inside
`mapToeatProductsToBowlBuilder`. -/
def mapTopping (toeatProducts : List ToteatProduct)
    (inventory : List ToteatInventoryItem) (defaultTopping : Topping) : Topping :=
  match PRODUCT_MAPPINGS.find? (fun m =>
      m.dailyAcaiId == defaultTopping.id && m.category == ProductCategory.topping) with
  | none => defaultTopping
  | some mapping =>
    let toeatProduct := toeatProducts.find? (fun p => p.guid == mapping.toeatGuid)
    let inventoryItem := inventory.find? (fun i => i.guid == mapping.toeatGuid)
    match toeatProduct with
    | none => defaultTopping
    | some tp =>
      { defaultTopping with
          availability := availabilityOf inventoryItem,
          toeatGuid := some tp.guid }

/-- Function `mapToeatProductsToBowlBuilder` from `src/services/toeat-api.ts`: the
pure catalog mapper. -/
def mapToeatProductsToBowlBuilder (toeatProducts : List ToteatProduct)
    (inventory : List ToteatInventoryItem) : List BowlSize × List Topping :=
  if toeatProducts.isEmpty then
    (defaultBowlSizes, defaultToppings)
  else
    (defaultBowlSizes.map (mapBowlSize toeatProducts inventory),
     defaultToppings.map (mapTopping toeatProducts inventory))

/-- Class `ToteatError` from `src/services/toeat-api.ts`: an `Error` subclass
carrying an optional HTTP status and an optional `retryAfter` (seconds). -/
structure ToteatError where
  message : String
  status : Option Nat := none
  retryAfter : Option Nat := none
deriving DecidableEq, Repr

/-- A JavaScript error value as seen by `catch` blocks: either a
`ToteatError` (matched by `instanceof ToteatError`) or any other error. -/
inductive JsError where
  | toteat (e : ToteatError)
  | other (message : String)
deriving DecidableEq, Repr

/-- The non-retry condition of `fetchWithRetry`:
`error instanceof ToteatError && (error.status === 401 || error.status === 400)`. -/
def nonRetryable : JsError → Bool
  | .toteat e => e.status == some 401 || e.status == some 400
  | .other _ => false

/-- Observable outcome of one `fetchWithRetry` run: the settled value (an
`Except.error` is a rejected promise; the payload is `none` exactly for the
trailing `throw lastError` with `lastError` still `undefined`), the number
of invocations of the wrapped operation, and the backoff delays inserted
between attempts, in order. -/
structure RetryTrace (α : Type) where
  result : Except (Option JsError) α
  calls : Nat
  delays : List Nat
deriving Repr

/-- Loop body of `fetchWithRetry` (`src/services/toeat-api.ts`). `fn i` is
the outcome of the i-th invocation of the wrapped operation (0-indexed).
`fuel` only bounds the recursion; called with `fuel = maxRetries` the guard
`attempt < maxRetries` always fires first, exactly like the `for` loop. -/
def fetchWithRetryGo {α : Type} (fn : Nat → Except JsError α)
    (maxRetries baseDelay : Nat) :
    Nat → Nat → Option JsError → RetryTrace α
  | 0, _, lastError => ⟨.error lastError, 0, []⟩
  | fuel + 1, attempt, lastError =>
    if attempt < maxRetries then
      match fn attempt with
      | .ok v => ⟨.ok v, 1, []⟩
      | .error e =>
        if nonRetryable e then ⟨.error (some e), 1, []⟩
        else if attempt = maxRetries - 1 then ⟨.error (some e), 1, []⟩
        else
          let delay := baseDelay * 2 ^ attempt
          let rest := fetchWithRetryGo fn maxRetries baseDelay fuel (attempt + 1) (some e)
          ⟨rest.result, rest.calls + 1, delay :: rest.delays⟩
    else ⟨.error lastError, 0, []⟩

/-- Function `fetchWithRetry` from `src/services/toeat-api.ts` (call sites use the
default `maxRetries = 3`, `baseDelay = 1000`). -/
def fetchWithRetry {α : Type} (fn : Nat → Except JsError α)
    (maxRetries baseDelay : Nat) : RetryTrace α :=
  fetchWithRetryGo fn maxRetries baseDelay maxRetries 0 none

/-- Predicate `response.ok` of the Fetch API: status in the range 200–299. -/
def respOk (status : Nat) : Bool := 200 ≤ status && status < 300

/-- Outcome of one `fetch` + body parse as seen by a fetcher: either a
thrown exception (network failure / JSON parse failure), or an HTTP
response with status, status text, optional parsed `Retry-After` header
(seconds), and parsed body. -/
inductive FetchOutcome (β : Type) where
  | exception (message : String)
  | response (status : Nat) (statusText : String)
      (retryAfterHeader : Option Nat) (body : β)
deriving DecidableEq, Repr

/-- Function `getInventoryStatus` from `src/services/toeat-api.ts`, as a function of
the network outcome (the token only affects the request, not the
classification). -/
def getInventoryStatus (r : FetchOutcome (List ToteatInventoryItem)) :
    Except JsError (List ToteatInventoryItem) :=
  match r with
  | .exception msg =>
    .error (.toteat ⟨"Inventory request failed: " ++ msg, none, none⟩)
  | .response status statusText retryAfterHeader body =>
    if status = 429 then
      let retryAfter := retryAfterHeader.getD 60
      .error (.toteat ⟨"Rate limit exceeded. Retry after " ++ toString retryAfter
        ++ " seconds.", some 429, some retryAfter⟩)
    else if respOk status then .ok body
    else .error (.toteat ⟨"Failed to fetch inventory: " ++ statusText, some status, none⟩)

/-- Function `getProducts` from `src/services/toeat-api.ts`. -/
def getProducts (r : FetchOutcome (List ToteatProduct)) :
    Except JsError (List ToteatProduct) :=
  match r with
  | .exception msg =>
    .error (.toteat ⟨"Products request failed: " ++ msg, none, none⟩)
  | .response status statusText retryAfterHeader body =>
    if status = 429 then
      let retryAfter := retryAfterHeader.getD 60
      .error (.toteat ⟨"Rate limit exceeded. Retry after " ++ toString retryAfter
        ++ " seconds.", some 429, some retryAfter⟩)
    else if respOk status then .ok body
    else .error (.toteat ⟨"Failed to fetch products: " ++ statusText, some status, none⟩)

/-- Function `getShiftStatus` from `src/services/toeat-api.ts`. Note: unlike the
other two fetchers it has no dedicated 429 branch; a 429 lands in the
generic `!response.ok` branch. -/
def getShiftStatus (r : FetchOutcome ToteatShiftStatus) :
    Except JsError ToteatShiftStatus :=
  match r with
  | .exception msg =>
    .error (.toteat ⟨"Shift status request failed: " ++ msg, none, none⟩)
  | .response status statusText _retryAfterHeader body =>
    if respOk status then .ok body
    else .error (.toteat ⟨"Failed to fetch shift status: " ++ statusText, some status, none⟩)

/-- The diagnostic of the fatal configuration error thrown by
`authenticateWithToeat` when the credentials are not configured. -/
def credentialsNotConfiguredMsg : String :=
  "Toeat API credentials not configured. Please set VITE_TOEAT_CLIENT_ID and VITE_TOEAT_CLIENT_SECRET environment variables."

/-- The module-level token cache of `src/services/toeat-api.ts`:
`let cachedToken: string | null`, `let tokenExpiry: number | null`
(milliseconds since epoch). -/
structure TokenCacheState where
  cachedToken : Option String
  tokenExpiry : Option Int
deriving DecidableEq, Repr

/-- The credential part of `API_CONFIG`. -/
structure ApiConfig where
  clientId : String
  clientSecret : String
deriving DecidableEq, Repr

/-- JavaScript truthiness of `string | null`: `null` and `""` are falsy. -/
def jsTruthyStr : Option String → Bool
  | none => false
  | some s => s ≠ ""

/-- JavaScript truthiness of `number | null`: `null` and `0` are falsy. -/
def jsTruthyNum : Option Int → Bool
  | none => false
  | some n => n ≠ 0

/-- Observable outcome of one `authenticateWithToeat` call: the settled
value, the token cache after the call, and how many credential exchanges
(`POST /auth/token` round-trips) were performed. -/
structure AuthResult where
  result : Except JsError String
  state : TokenCacheState
  exchanges : Nat
deriving DecidableEq, Repr

/-- Function `authenticateWithToeat` from `src/services/toeat-api.ts`, as a function
of the configured credentials, the current token cache, the current time
`now` (`Date.now()`, milliseconds) and the network outcome of the
credential exchange (consulted only on a cache miss). -/
def authenticateWithToeat (cfg : ApiConfig) (st : TokenCacheState) (now : Int)
    (net : FetchOutcome ToteatAuthResponse) : AuthResult :=
  if jsTruthyStr st.cachedToken && jsTruthyNum st.tokenExpiry &&
      (match st.tokenExpiry with
       | some e => decide (now < e)
       | none => false) then
    ⟨.ok (st.cachedToken.getD ""), st, 0⟩
  else if cfg.clientId = "" || cfg.clientSecret = "" then
    ⟨.error (.toteat ⟨credentialsNotConfiguredMsg, some 401, none⟩), st, 0⟩
  else
    match net with
    | .exception msg =>
      ⟨.error (.toteat ⟨"Failed to authenticate with Toeat: " ++ msg, none, none⟩), st, 1⟩
    | .response status statusText _retryAfterHeader data =>
      if respOk status then
        ⟨.ok data.access_token,
         ⟨some data.access_token, some (now + (data.expires_in - 300) * 1000)⟩, 1⟩
      else
        ⟨.error (.toteat ⟨"Authentication failed: " ++ statusText, some status, none⟩), st, 1⟩

/-- Per-attempt outcomes of the four steps of one load cycle; the three
authenticated reads are functions of the token in use. -/
structure LoadEnv where
  authRun : Nat → Except JsError String
  shiftRun : String → Nat → Except JsError ToteatShiftStatus
  inventoryRun : String → Nat → Except JsError (List ToteatInventoryItem)
  productsRun : String → Nat → Except JsError (List ToteatProduct)

/-- The value resolved by a successful `loadProductsFromToeat` call
(`lastUpdated : Date` is dropped — wall-clock only). -/
structure LoadResult where
  bowlSizes : List BowlSize
  toppings : List Topping
  isStoreOpen : Bool
deriving DecidableEq, Repr

/-- Function `loadProductsFromToeat` from `src/services/toeat-api.ts`: authenticate,
check shift status, fetch inventory and products (via `Promise.all` — any
rejection rejects the whole step), map. The surrounding
`try ... catch (error) { console.error(...); throw error; }` logs and
rethrows, so every step failure settles the promise with that error. -/
def loadProductsFromToeat (env : LoadEnv) : Except (Option JsError) LoadResult :=
  match (fetchWithRetry env.authRun 3 1000).result with
  | .error e => .error e
  | .ok token =>
    match (fetchWithRetry (env.shiftRun token) 3 1000).result with
    | .error e => .error e
    | .ok shiftStatus =>
      match (fetchWithRetry (env.inventoryRun token) 3 1000).result with
      | .error e => .error e
      | .ok inventory =>
        match (fetchWithRetry (env.productsRun token) 3 1000).result with
        | .error e => .error e
        | .ok products =>
          let mapped := mapToeatProductsToBowlBuilder products inventory
          .ok ⟨mapped.1, mapped.2, shiftStatus.is_open⟩

/-- Value `round(p * 0.85)` in exact rational arithmetic, ties rounded up — the
mathematical reading of the spec's pricing formula, which coincides with
JavaScript `Math.round` on a nonnegative argument. -/
def specRound085 (p : Nat) : Nat := ⌊(p : ℚ) * (85 / 100) + 1 / 2⌋₊

lemma specRound085_eq_jsRound085 (p : Nat) : specRound085 p = jsRound085 p := by
  unfold specRound085 jsRound085
  have h : (p : ℚ) * (85 / 100) + 1 / 2 = ((85 * p + 50 : ℕ) : ℚ) / ((100 : ℕ) : ℚ) := by
    push_cast
    ring
  rw [h, Nat.floor_div_eq_div]

lemma mapToeatProductsToBowlBuilder_of_ne_empty (toeatProducts : List ToteatProduct)
    (inventory : List ToteatInventoryItem) (hne : toeatProducts ≠ []) :
    mapToeatProductsToBowlBuilder toeatProducts inventory =
      (defaultBowlSizes.map (mapBowlSize toeatProducts inventory),
       defaultToppings.map (mapTopping toeatProducts inventory)) := by
  unfold mapToeatProductsToBowlBuilder
  rw [if_neg]
  simp [List.isEmpty_iff, hne]

/-- Claim C4. Applied to an empty remote product list (for any inventory
list), the mapper returns exactly the compiled-in local catalog: the three
sizes go/tipico/clasico at default prices 5500/6500/7700 and the twelve
default add-ons, every entry with availability `true`. -/
theorem map_empty_returns_default_catalog (inventory : List ToteatInventoryItem) :
    mapToeatProductsToBowlBuilder [] inventory = (defaultBowlSizes, defaultToppings) ∧
    defaultBowlSizes.map (fun b => (b.id, b.price)) =
      [("go", 5500), ("tipico", 6500), ("clasico", 7700)] ∧
    defaultBowlSizes.length = 3 ∧ defaultToppings.length = 12 ∧
    (∀ b ∈ defaultBowlSizes, b.availability = true) ∧
    (∀ t ∈ defaultToppings, t.availability = true) :=
  ⟨rfl, by decide, by decide, by decide, by decide, by decide⟩

/-- Witness for `map_empty_returns_default_catalog` at the concrete
inventory `[]`. -/
theorem map_empty_returns_default_catalog_witness :
    mapToeatProductsToBowlBuilder [] [] = (defaultBowlSizes, defaultToppings) :=
  (map_empty_returns_default_catalog []).1

/-- Claim C2. For every non-empty remote product list and every size entry of
the local catalog with a mapping entry and a remote product carrying the
mapped remote id, the mapper's output entry satisfies
`price = round(remoteProduct.price * 0.85)` and
`originalPrice = remoteProduct.price`. -/
theorem mapped_size_price_discount (toeatProducts : List ToteatProduct)
    (inventory : List ToteatInventoryItem) (defaultBowl : BowlSize)
    (hb : defaultBowl ∈ defaultBowlSizes) (mapping : ProductMapping)
    (hm : PRODUCT_MAPPINGS.find? (fun m =>
        m.dailyAcaiId == defaultBowl.id && m.category == ProductCategory.bowl_size) =
      some mapping)
    (tp : ToteatProduct)
    (htp : toeatProducts.find? (fun p => p.guid == mapping.toeatGuid) = some tp)
    (hne : toeatProducts ≠ []) :
    ∃ entry ∈ (mapToeatProductsToBowlBuilder toeatProducts inventory).1,
      entry.id = defaultBowl.id ∧
      entry.price = specRound085 tp.price ∧
      entry.originalPrice = tp.price := by
  rw [mapToeatProductsToBowlBuilder_of_ne_empty toeatProducts inventory hne]
  refine ⟨mapBowlSize toeatProducts inventory defaultBowl,
    List.mem_map_of_mem _ hb, ?_⟩
  unfold mapBowlSize
  rw [hm]
  simp only [htp]
  simp [specRound085_eq_jsRound085]

/-- Witness for `mapped_size_price_discount`: the spec's example scenario —
remote price 6500 on the product mapped to local size `"go"` yields
`price = 5525` and `originalPrice = 6500`. -/
theorem mapped_size_price_discount_witness :
    ∃ entry ∈ (mapToeatProductsToBowlBuilder
        [{ guid := "PLACEHOLDER_GUID_GO_10_10", price := 6500 }]
        [⟨"PLACEHOLDER_GUID_GO_10_10", InventoryStatus.OUT_OF_STOCK, none⟩]).1,
      entry.id = "go" ∧ entry.price = 5525 ∧ entry.originalPrice = 6500 := by
  obtain ⟨entry, hmem, hid, hp, ho⟩ := mapped_size_price_discount
    [{ guid := "PLACEHOLDER_GUID_GO_10_10", price := 6500 }]
    [⟨"PLACEHOLDER_GUID_GO_10_10", InventoryStatus.OUT_OF_STOCK, none⟩]
    { id := "go", name := "Go 10/10", size := "290 ml", originalPrice := 6500,
      price := 5500, description := "Toppings infinitos", availability := true }
    (by decide)
    ⟨"go", "PLACEHOLDER_GUID_GO_10_10", ProductCategory.bowl_size, some "Go 10/10 (290ml)"⟩
    (by decide)
    { guid := "PLACEHOLDER_GUID_GO_10_10", price := 6500 }
    (by decide) (by decide)
  refine ⟨entry, hmem, hid, ?_, ho⟩
  rw [hp, specRound085_eq_jsRound085]
  decide

/-- Claim C3, counterexample. The claim reads availability with *exists*
semantics over the inventory list; the code consults only the *first*
inventory item whose guid matches. With a duplicated guid — first item
`IN_STOCK`, second `OUT_OF_STOCK` — the inventory list does contain an
`OUT_OF_STOCK` item with the mapped remote id, yet the mapped `"go"` entry
comes out available. -/
theorem mapped_availability_exists_semantics_cx :
    (∃ i ∈ ([⟨"PLACEHOLDER_GUID_GO_10_10", InventoryStatus.IN_STOCK, none⟩,
             ⟨"PLACEHOLDER_GUID_GO_10_10", InventoryStatus.OUT_OF_STOCK, none⟩] :
        List ToteatInventoryItem),
       i.guid = "PLACEHOLDER_GUID_GO_10_10" ∧ i.status = InventoryStatus.OUT_OF_STOCK) ∧
    ∃ entry ∈ (mapToeatProductsToBowlBuilder
        [{ guid := "PLACEHOLDER_GUID_GO_10_10", price := 6500 }]
        [⟨"PLACEHOLDER_GUID_GO_10_10", InventoryStatus.IN_STOCK, none⟩,
         ⟨"PLACEHOLDER_GUID_GO_10_10", InventoryStatus.OUT_OF_STOCK, none⟩]).1,
      entry.id = "go" ∧ entry.toeatGuid = some "PLACEHOLDER_GUID_GO_10_10" ∧
      entry.availability = true := by decide

/-- Claim C3, amended. For every non-empty remote product list and every
local entry (size or add-on) mapped to a found remote product, the output
entry's availability is `false` if and only if the *first* inventory item
whose id equals the mapped remote id has status `OUT_OF_STOCK`; when no
inventory item with that id exists, availability is `true`. -/
theorem mapped_entry_availability_first_match
    (toeatProducts : List ToteatProduct) (inventory : List ToteatInventoryItem)
    (hne : toeatProducts ≠ []) :
    (∀ defaultBowl ∈ defaultBowlSizes, ∀ mapping : ProductMapping,
      PRODUCT_MAPPINGS.find? (fun m =>
          m.dailyAcaiId == defaultBowl.id && m.category == ProductCategory.bowl_size) =
        some mapping →
      ∀ tp : ToteatProduct,
        toeatProducts.find? (fun p => p.guid == mapping.toeatGuid) = some tp →
      ∃ entry ∈ (mapToeatProductsToBowlBuilder toeatProducts inventory).1,
        entry.id = defaultBowl.id ∧
        (entry.availability = false ↔
          (inventory.find? (fun i => i.guid == mapping.toeatGuid)).map
            ToteatInventoryItem.status = some InventoryStatus.OUT_OF_STOCK) ∧
        (inventory.find? (fun i => i.guid == mapping.toeatGuid) = none →
          entry.availability = true)) ∧
    (∀ defaultTopping ∈ defaultToppings, ∀ mapping : ProductMapping,
      PRODUCT_MAPPINGS.find? (fun m =>
          m.dailyAcaiId == defaultTopping.id && m.category == ProductCategory.topping) =
        some mapping →
      ∀ tp : ToteatProduct,
        toeatProducts.find? (fun p => p.guid == mapping.toeatGuid) = some tp →
      ∃ entry ∈ (mapToeatProductsToBowlBuilder toeatProducts inventory).2,
        entry.id = defaultTopping.id ∧
        (entry.availability = false ↔
          (inventory.find? (fun i => i.guid == mapping.toeatGuid)).map
            ToteatInventoryItem.status = some InventoryStatus.OUT_OF_STOCK) ∧
        (inventory.find? (fun i => i.guid == mapping.toeatGuid) = none →
          entry.availability = true)) := by
  constructor
  · intro defaultBowl hb mapping hm tp htp
    rw [mapToeatProductsToBowlBuilder_of_ne_empty toeatProducts inventory hne]
    refine ⟨mapBowlSize toeatProducts inventory defaultBowl,
      List.mem_map_of_mem _ hb, ?_⟩
    unfold mapBowlSize
    rw [hm]
    simp only [htp]
    refine ⟨trivial, ?_, ?_⟩
    · cases hfind : inventory.find? (fun i => i.guid == mapping.toeatGuid) with
      | none => simp [availabilityOf]
      | some it => cases hst : it.status <;> simp [availabilityOf, hst]
    · intro hnone
      rw [hnone]
      rfl
  · intro defaultTopping ht mapping hm tp htp
    rw [mapToeatProductsToBowlBuilder_of_ne_empty toeatProducts inventory hne]
    refine ⟨mapTopping toeatProducts inventory defaultTopping,
      List.mem_map_of_mem _ ht, ?_⟩
    unfold mapTopping
    rw [hm]
    simp only [htp]
    refine ⟨trivial, ?_, ?_⟩
    · cases hfind : inventory.find? (fun i => i.guid == mapping.toeatGuid) with
      | none => simp [availabilityOf]
      | some it => cases hst : it.status <;> simp [availabilityOf, hst]
    · intro hnone
      rw [hnone]
      rfl

/-- Witness for `mapped_entry_availability_first_match`: an `OUT_OF_STOCK`
inventory item for the product mapped to `"tipico"` makes the output entry
unavailable. -/
theorem mapped_entry_availability_first_match_witness :
    ∃ entry ∈ (mapToeatProductsToBowlBuilder
        [{ guid := "PLACEHOLDER_GUID_TIPICO", price := 7600 }]
        [⟨"PLACEHOLDER_GUID_TIPICO", InventoryStatus.OUT_OF_STOCK, none⟩]).1,
      entry.id = "tipico" ∧ entry.availability = false := by
  obtain ⟨entry, hmem, hid, hiff, _⟩ := (mapped_entry_availability_first_match
      [{ guid := "PLACEHOLDER_GUID_TIPICO", price := 7600 }]
      [⟨"PLACEHOLDER_GUID_TIPICO", InventoryStatus.OUT_OF_STOCK, none⟩]
      (by decide)).1
    { id := "tipico", name := "Típico", size := "350 ml", originalPrice := 7600,
      price := 6500, description := "El equilibrio perfecto", popular := true,
      availability := true }
    (by decide)
    ⟨"tipico", "PLACEHOLDER_GUID_TIPICO", ProductCategory.bowl_size, some "Típico (350ml)"⟩
    (by decide)
    { guid := "PLACEHOLDER_GUID_TIPICO", price := 7600 }
    (by decide)
  exact ⟨entry, hmem, hid, hiff.mpr (by decide)⟩

lemma fetchWithRetryGo_allfail {α : Type} (fn : Nat → Except JsError α)
    (err : Nat → JsError) (hfail : ∀ i, fn i = Except.error (err i))
    (hretry : ∀ i, nonRetryable (err i) = false) (maxRetries baseDelay : Nat) :
    ∀ fuel attempt lastError, attempt + fuel = maxRetries → attempt < maxRetries →
      fetchWithRetryGo fn maxRetries baseDelay fuel attempt lastError =
        ⟨Except.error (some (err (maxRetries - 1))), maxRetries - attempt,
         (List.range' attempt (maxRetries - 1 - attempt)).map (fun i => baseDelay * 2 ^ i)⟩ := by
  intro fuel
  induction fuel with
  | zero => intro attempt lastError hsum hlt; omega
  | succ f ih =>
    intro attempt lastError hsum hlt
    rw [fetchWithRetryGo, if_pos hlt, hfail attempt]
    simp only [hretry attempt, Bool.false_eq_true, if_false]
    by_cases hlast : attempt = maxRetries - 1
    · rw [if_pos hlast]
      have h1 : maxRetries - attempt = 1 := by omega
      have h2 : maxRetries - 1 - attempt = 0 := by omega
      rw [h1, h2, hlast]
      rfl
    · rw [if_neg hlast]
      have hrec := ih (attempt + 1) (some (err attempt)) (by omega) (by omega)
      rw [hrec]
      have h1 : maxRetries - attempt = (maxRetries - (attempt + 1)) + 1 := by omega
      have h2 : maxRetries - 1 - attempt = (maxRetries - 1 - (attempt + 1)) + 1 := by omega
      rw [h1, h2, List.range'_succ]
      rfl

/-- Claim C5. When the wrapped operation fails with a retryable (non-401,
non-400) error on every attempt, `fetchWithRetry` with `maxRetries = n`
(`n ≥ 1`) invokes the operation exactly `n` times and the error it finally
throws is the error of the n-th (last) attempt, unchanged. -/
theorem retry_exhausts_all_attempts {α : Type} (fn : Nat → Except JsError α)
    (err : Nat → JsError) (hfail : ∀ i, fn i = Except.error (err i))
    (hretry : ∀ i, nonRetryable (err i) = false) (n baseDelay : Nat) (hn : 1 ≤ n) :
    (fetchWithRetry fn n baseDelay).calls = n ∧
    (fetchWithRetry fn n baseDelay).result = Except.error (some (err (n - 1))) := by
  rw [fetchWithRetry,
    fetchWithRetryGo_allfail fn err hfail hretry n baseDelay n 0 none (by omega) (by omega)]
  exact ⟨by simp, rfl⟩

/-- Witness for `retry_exhausts_all_attempts`: an operation failing with a
fresh network error on each of 3 attempts is called 3 times and the settled
error is the third attempt's error. -/
theorem retry_exhausts_all_attempts_witness :
    (fetchWithRetry (fun i => (Except.error (JsError.other ("boom " ++ toString i)) :
        Except JsError Nat)) 3 1000).calls = 3 ∧
    (fetchWithRetry (fun i => (Except.error (JsError.other ("boom " ++ toString i)) :
        Except JsError Nat)) 3 1000).result =
      Except.error (some (JsError.other "boom 2")) := by
  have h := retry_exhausts_all_attempts
    (fun i => (Except.error (JsError.other ("boom " ++ toString i)) : Except JsError Nat))
    (fun i => JsError.other ("boom " ++ toString i))
    (fun _ => rfl) (fun _ => rfl) 3 1000 (by decide)
  exact ⟨h.1, h.2⟩

/-- Claim C6. When the first attempt fails with a `ToteatError` of status 401
or 400, `fetchWithRetry` invokes the operation exactly once and propagates
that error immediately, regardless of `maxRetries`. -/
theorem retry_shortcircuit_on_auth_error {α : Type} (fn : Nat → Except JsError α)
    (e : ToteatError) (h0 : fn 0 = Except.error (JsError.toteat e))
    (hst : e.status = some 401 ∨ e.status = some 400) (n baseDelay : Nat) (hn : 1 ≤ n) :
    (fetchWithRetry fn n baseDelay).calls = 1 ∧
    (fetchWithRetry fn n baseDelay).result = Except.error (some (JsError.toteat e)) := by
  have hnr : nonRetryable (JsError.toteat e) = true := by
    rcases hst with h | h <;> simp [nonRetryable, h]
  obtain ⟨f, rfl⟩ : ∃ f, n = f + 1 := ⟨n - 1, by omega⟩
  rw [fetchWithRetry, fetchWithRetryGo, if_pos (by omega), h0]
  simp [hnr]

/-- Witness for `retry_shortcircuit_on_auth_error`: a 401 on the first
attempt with `maxRetries = 3` yields exactly one call. -/
theorem retry_shortcircuit_on_auth_error_witness :
    (fetchWithRetry (fun _ => (Except.error (JsError.toteat ⟨"auth failed", some 401, none⟩) :
        Except JsError Nat)) 3 1000).calls = 1 ∧
    (fetchWithRetry (fun _ => (Except.error (JsError.toteat ⟨"auth failed", some 401, none⟩) :
        Except JsError Nat)) 3 1000).result =
      Except.error (some (JsError.toteat ⟨"auth failed", some 401, none⟩)) :=
  retry_shortcircuit_on_auth_error _ ⟨"auth failed", some 401, none⟩ rfl
    (Or.inl rfl) 3 1000 (by decide)

/-- Claim C7, counterexample. With `maxRetries = 3` and `baseDelay = 1000`
and every attempt failing with a retryable error, the run inserts exactly
two delays — 1000 ms and 2000 ms — not the three delays (1 s, 2 s, 4 s)
the claim asserts: the last attempt throws without a further delay. -/
theorem retry_delays_three_attempts_cx :
    (fetchWithRetry (fun i => (Except.error (JsError.other ("net " ++ toString i)) :
        Except JsError Nat)) 3 1000).delays = [1000, 2000] ∧
    (fetchWithRetry (fun i => (Except.error (JsError.other ("net " ++ toString i)) :
        Except JsError Nat)) 3 1000).delays ≠ [1000, 2000, 4000] := by
  constructor
  · rfl
  · decide

/-- Claim C7, amended. When every attempt fails with a retryable error, the
delay inserted after attempt `i` (0-indexed), before attempt `i + 1`, is
`baseDelay * 2 ^ i`; a run with `n` attempts inserts exactly `n - 1`
delays (so 1 s and 2 s for 3 attempts at `baseDelay = 1000` ms — no delay
follows the final, throwing attempt). -/
theorem retry_backoff_delay_schedule {α : Type} (fn : Nat → Except JsError α)
    (err : Nat → JsError) (hfail : ∀ i, fn i = Except.error (err i))
    (hretry : ∀ i, nonRetryable (err i) = false) (n baseDelay : Nat) (hn : 1 ≤ n) :
    (fetchWithRetry fn n baseDelay).delays =
      (List.range (n - 1)).map (fun i => baseDelay * 2 ^ i) ∧
    (fetchWithRetry fn n baseDelay).delays.length = n - 1 := by
  rw [fetchWithRetry,
    fetchWithRetryGo_allfail fn err hfail hretry n baseDelay n 0 none (by omega) (by omega)]
  constructor
  · simp [List.range_eq_range']
  · simp

/-- Witness for `retry_backoff_delay_schedule` at 3 attempts,
`baseDelay = 1000`. -/
theorem retry_backoff_delay_schedule_witness :
    (fetchWithRetry (fun i => (Except.error (JsError.other ("srv " ++ toString i)) :
        Except JsError Nat)) 3 1000).delays = [1000, 2000] := by
  have h := retry_backoff_delay_schedule
    (fun i => (Except.error (JsError.other ("srv " ++ toString i)) : Except JsError Nat))
    (fun i => JsError.other ("srv " ++ toString i))
    (fun _ => rfl) (fun _ => rfl) 3 1000 (by decide)
  rw [h.1]
  rfl

/-- Claim C8, counterexample. `getShiftStatus` has no 429 branch: a 429
response with `Retry-After: 120` produces a generic error whose
`retryAfter` is `none`, not 120 — the claim fails for this fetcher. -/
theorem shiftstatus_429_no_retryafter_cx :
    getShiftStatus (FetchOutcome.response 429 "Too Many Requests" (some 120)
        ⟨true, none, none⟩) =
      Except.error (JsError.toteat
        ⟨"Failed to fetch shift status: Too Many Requests", some 429, none⟩) ∧
    ∀ e : ToteatError,
      getShiftStatus (FetchOutcome.response 429 "Too Many Requests" (some 120)
          ⟨true, none, none⟩) = Except.error (JsError.toteat e) →
      e.retryAfter ≠ some 120 := by
  refine ⟨rfl, ?_⟩
  intro e he hra
  cases he
  cases hra

/-- Claim C8, amended. For `getInventoryStatus` and `getProducts` a 429
response produces an error carrying status 429 and `retryAfter` equal to
the `Retry-After` header in seconds (60 when the header is absent);
`getShiftStatus` instead maps a 429 response to a generic error carrying
status 429 and no `retryAfter`. -/
theorem rate_limit_429_classification (statusText : String)
    (retryAfterHeader : Option Nat) (items : List ToteatInventoryItem)
    (products : List ToteatProduct) (shift : ToteatShiftStatus) :
    getInventoryStatus (FetchOutcome.response 429 statusText retryAfterHeader items) =
      Except.error (JsError.toteat
        ⟨"Rate limit exceeded. Retry after " ++ toString (retryAfterHeader.getD 60)
          ++ " seconds.", some 429, some (retryAfterHeader.getD 60)⟩) ∧
    getProducts (FetchOutcome.response 429 statusText retryAfterHeader products) =
      Except.error (JsError.toteat
        ⟨"Rate limit exceeded. Retry after " ++ toString (retryAfterHeader.getD 60)
          ++ " seconds.", some 429, some (retryAfterHeader.getD 60)⟩) ∧
    getShiftStatus (FetchOutcome.response 429 statusText retryAfterHeader shift) =
      Except.error (JsError.toteat
        ⟨"Failed to fetch shift status: " ++ statusText, some 429, none⟩) :=
  ⟨rfl, rfl, rfl⟩

/-- Witness for `rate_limit_429_classification`: header present (120 s) on
the inventory read, header absent (default 60 s) on the products read. -/
theorem rate_limit_429_classification_witness :
    getInventoryStatus (FetchOutcome.response 429 "Too Many Requests" (some 120) []) =
      Except.error (JsError.toteat
        ⟨"Rate limit exceeded. Retry after 120 seconds.", some 429, some 120⟩) ∧
    getProducts (FetchOutcome.response 429 "Too Many Requests" none []) =
      Except.error (JsError.toteat
        ⟨"Rate limit exceeded. Retry after 60 seconds.", some 429, some 60⟩) :=
  ⟨(rate_limit_429_classification "Too Many Requests" (some 120) [] [] ⟨true, none, none⟩).1,
   (rate_limit_429_classification "Too Many Requests" none [] [] ⟨true, none, none⟩).2.1⟩

/-- Claim C9. After a successful credential exchange at time `t0` whose
response carries `access_token` and `expires_in` (seconds): (a) any call
made while `now + 300 s` still precedes the provider-stated expiry
`t0 + expires_in` returns the cached token with no new exchange and leaves
the cache unchanged — so two such calls return the same token string;
(b) a call at or after the recorded expiry `t0 + (expires_in - 300) s`
performs exactly one new credential exchange (credentials configured);
(c) every token served from the cache is valid more than 300 s beyond the
moment of return. -/
theorem token_cache_contract (cfg0 cfg : ApiConfig) (st0 : TokenCacheState)
    (t0 : Int) (stx : String) (r : ToteatAuthResponse) (st1 : TokenCacheState)
    (hex : authenticateWithToeat cfg0 st0 t0 (FetchOutcome.response 200 stx none r) =
      ⟨Except.ok r.access_token, st1, 1⟩)
    (htok : r.access_token ≠ "") :
    (∀ now : Int, 0 ≤ now → now + 300 * 1000 < t0 + r.expires_in * 1000 →
      ∀ net : FetchOutcome ToteatAuthResponse,
        authenticateWithToeat cfg st1 now net = ⟨Except.ok r.access_token, st1, 0⟩) ∧
    (∀ now : Int, t0 + (r.expires_in - 300) * 1000 ≤ now →
      cfg.clientId ≠ "" → cfg.clientSecret ≠ "" →
      ∀ net : FetchOutcome ToteatAuthResponse,
        (authenticateWithToeat cfg st1 now net).exchanges = 1) ∧
    (∀ now : Int, ∀ net : FetchOutcome ToteatAuthResponse,
      ∀ tok : String, ∀ st2 : TokenCacheState,
        authenticateWithToeat cfg st1 now net = ⟨Except.ok tok, st2, 0⟩ →
        now + 300 * 1000 < t0 + r.expires_in * 1000) := by
  have hst1 : st1 = ⟨some r.access_token, some (t0 + (r.expires_in - 300) * 1000)⟩ := by
    rw [authenticateWithToeat] at hex
    split at hex
    · exact absurd (congrArg AuthResult.exchanges hex) (by simp)
    · split at hex
      · exact absurd (congrArg AuthResult.exchanges hex) (by simp)
      · simp only [show respOk 200 = true from rfl, if_true] at hex
        exact (congrArg AuthResult.state hex).symm
  subst hst1
  refine ⟨?_, ?_, ?_⟩
  · intro now hnow hmargin net
    rw [authenticateWithToeat.eq_def, if_pos]
    · rfl
    · have hlt : now < t0 + (r.expires_in - 300) * 1000 := by omega
      have hne0 : t0 + (r.expires_in - 300) * 1000 ≠ 0 := by omega
      simp [jsTruthyStr, jsTruthyNum, htok, hne0, hlt]
  · intro now hge hid hsec net
    rw [authenticateWithToeat.eq_def, if_neg, if_neg]
    · cases net with
      | exception msg => rfl
      | response status statusText rah data =>
        dsimp only
        split <;> rfl
    · simp [hid, hsec]
    · have hnlt : ¬ now < t0 + (r.expires_in - 300) * 1000 := by omega
      simp [jsTruthyNum, hnlt]
  · intro now net tok st2 hcall
    rw [authenticateWithToeat.eq_def] at hcall
    split at hcall
    case isTrue h =>
      simp only [Bool.and_eq_true, decide_eq_true_eq] at h
      omega
    case isFalse h =>
      split at hcall
      · exact absurd (congrArg AuthResult.result hcall) (by simp)
      · cases net with
        | exception msg =>
          exact absurd (congrArg AuthResult.result hcall) (by simp)
        | response status statusText rah data =>
          dsimp only at hcall
          split at hcall <;>
            exact absurd (congrArg AuthResult.exchanges hcall) (by simp)

/-- Witness for `token_cache_contract`: after an exchange at `t0 = 0` with
`expires_in = 3600` s, a call at `now = 1000` ms is served from the cache
with no exchange, even though the network is down. -/
theorem token_cache_contract_witness :
    authenticateWithToeat ⟨"id", "secret"⟩ ⟨some "tok123", some 3300000⟩ 1000
        (FetchOutcome.exception "down") =
      ⟨Except.ok "tok123", ⟨some "tok123", some 3300000⟩, 0⟩ :=
  (token_cache_contract ⟨"id", "secret"⟩ ⟨"id", "secret"⟩ ⟨none, none⟩ 0 "OK"
      ⟨"tok123", 3600, "Bearer"⟩ ⟨some "tok123", some 3300000⟩ (by decide) (by decide)).1
    1000 (by decide) (by decide) (FetchOutcome.exception "down")

/-- Claim C10, counterexample. The cache-hit guard uses JavaScript
truthiness: with a cached *empty-string* token whose recorded expiry (1000)
lies in the future of `now = 0`, the guard is falsy, so the call falls
through to the credential check and — with empty credentials — raises the
missing-credentials configuration error instead of returning the cached
token. -/
theorem cached_empty_token_not_returned_cx :
    ((0 : Int) < 1000) ∧
    (authenticateWithToeat ⟨"", ""⟩ ⟨some "", some 1000⟩ 0
        (FetchOutcome.exception "net down")).result =
      Except.error (JsError.toteat ⟨credentialsNotConfiguredMsg, some 401, none⟩) ∧
    (authenticateWithToeat ⟨"", ""⟩ ⟨some "", some 1000⟩ 0
        (FetchOutcome.exception "net down")).result ≠ Except.ok "" :=
  ⟨by decide, by decide, by decide⟩

/-- Claim C10, amended. Whenever the token cache holds a *non-empty* token
whose recorded expiry is nonzero and lies strictly after the current time,
`authenticateWithToeat` returns that cached token with no credential
exchange and without examining the configured credentials — in particular
it succeeds when client id and secret are both empty; consequently the
missing-credentials error can only be raised on calls for which no such
valid cached token exists. (An empty-string cached token or a zero
recorded expiry is treated as absent by the JavaScript truthiness check.) -/
theorem cached_token_skips_credentials :
    (∀ (cfg : ApiConfig) (st : TokenCacheState) (now : Int)
        (net : FetchOutcome ToteatAuthResponse) (t : String) (exp : Int),
      st.cachedToken = some t → t ≠ "" → st.tokenExpiry = some exp → exp ≠ 0 →
      now < exp → authenticateWithToeat cfg st now net = ⟨Except.ok t, st, 0⟩) ∧
    (∀ (cfg : ApiConfig) (st : TokenCacheState) (now : Int)
        (net : FetchOutcome ToteatAuthResponse) (t : String) (exp : Int),
      st.cachedToken = some t → t ≠ "" → st.tokenExpiry = some exp → exp ≠ 0 →
      now < exp →
      (authenticateWithToeat cfg st now net).result ≠
        Except.error (JsError.toteat ⟨credentialsNotConfiguredMsg, some 401, none⟩)) := by
  have hmain : ∀ (cfg : ApiConfig) (st : TokenCacheState) (now : Int)
      (net : FetchOutcome ToteatAuthResponse) (t : String) (exp : Int),
      st.cachedToken = some t → t ≠ "" → st.tokenExpiry = some exp → exp ≠ 0 →
      now < exp → authenticateWithToeat cfg st now net = ⟨Except.ok t, st, 0⟩ := by
    intro cfg st now net t exp htok ht hexp he0 hlt
    rw [authenticateWithToeat.eq_def, if_pos]
    · rw [htok]
      rfl
    · rw [htok, hexp]
      simp [jsTruthyStr, jsTruthyNum, ht, he0, hlt]
  refine ⟨hmain, ?_⟩
  intro cfg st now net t exp htok ht hexp he0 hlt hcontra
  rw [hmain cfg st now net t exp htok ht hexp he0 hlt] at hcontra
  cases hcontra

/-- Witness for `cached_token_skips_credentials`: a valid cached token is
returned although both credentials are empty and the network is down. -/
theorem cached_token_skips_credentials_witness :
    authenticateWithToeat ⟨"", ""⟩ ⟨some "tok", some 500⟩ 100
        (FetchOutcome.exception "down") =
      ⟨Except.ok "tok", ⟨some "tok", some 500⟩, 0⟩ :=
  cached_token_skips_credentials.1 ⟨"", ""⟩ ⟨some "tok", some 500⟩ 100
    (FetchOutcome.exception "down") "tok" 500 rfl (by decide) rfl (by decide) (by decide)

/-- Claim C1, counterexample. When authentication fails with a 401 on a load
cycle, `loadProductsFromToeat` settles with that error — the `catch` block
rethrows — and returns no catalog at all, rather than resolving to the
default local catalog plus a non-null error as the claim states. -/
theorem loader_auth_failure_throws_cx :
    loadProductsFromToeat
      { authRun := fun _ => Except.error (JsError.toteat
          ⟨"Authentication failed: Unauthorized", some 401, none⟩),
        shiftRun := fun _ _ => Except.ok ⟨true, none, none⟩,
        inventoryRun := fun _ _ => Except.ok [],
        productsRun := fun _ _ => Except.ok [] } =
      Except.error (some (JsError.toteat
        ⟨"Authentication failed: Unauthorized", some 401, none⟩)) ∧
    ∀ res : LoadResult,
      loadProductsFromToeat
        { authRun := fun _ => Except.error (JsError.toteat
            ⟨"Authentication failed: Unauthorized", some 401, none⟩),
          shiftRun := fun _ _ => Except.ok ⟨true, none, none⟩,
          inventoryRun := fun _ _ => Except.ok [],
          productsRun := fun _ _ => Except.ok [] } ≠ Except.ok res := by
  refine ⟨rfl, ?_⟩
  intro res hres
  rw [show loadProductsFromToeat
      { authRun := fun _ => Except.error (JsError.toteat
          ⟨"Authentication failed: Unauthorized", some 401, none⟩),
        shiftRun := fun _ _ => Except.ok ⟨true, none, none⟩,
        inventoryRun := fun _ _ => Except.ok [],
        productsRun := fun _ _ => Except.ok [] } =
      Except.error (some (JsError.toteat
        ⟨"Authentication failed: Unauthorized", some 401, none⟩)) from rfl] at hres
  cases hres

/-- Claim C1, amended. Every error raised during a load cycle — in
particular an authentication failure — is propagated by
`loadProductsFromToeat` to its caller unchanged, as a rejected promise;
no fallback catalog is returned. -/
theorem loader_propagates_step_errors (env : LoadEnv) :
    (∀ e, (fetchWithRetry env.authRun 3 1000).result = Except.error e →
      loadProductsFromToeat env = Except.error e) ∧
    (∀ token e, (fetchWithRetry env.authRun 3 1000).result = Except.ok token →
      (fetchWithRetry (env.shiftRun token) 3 1000).result = Except.error e →
      loadProductsFromToeat env = Except.error e) ∧
    (∀ token shift e, (fetchWithRetry env.authRun 3 1000).result = Except.ok token →
      (fetchWithRetry (env.shiftRun token) 3 1000).result = Except.ok shift →
      (fetchWithRetry (env.inventoryRun token) 3 1000).result = Except.error e →
      loadProductsFromToeat env = Except.error e) ∧
    (∀ token shift inv e, (fetchWithRetry env.authRun 3 1000).result = Except.ok token →
      (fetchWithRetry (env.shiftRun token) 3 1000).result = Except.ok shift →
      (fetchWithRetry (env.inventoryRun token) 3 1000).result = Except.ok inv →
      (fetchWithRetry (env.productsRun token) 3 1000).result = Except.error e →
      loadProductsFromToeat env = Except.error e) := by
  refine ⟨?_, ?_, ?_, ?_⟩
  · intro e h1
    simp only [loadProductsFromToeat, h1]
  · intro token e h1 h2
    simp only [loadProductsFromToeat, h1, h2]
  · intro token shift e h1 h2 h3
    simp only [loadProductsFromToeat, h1, h2, h3]
  · intro token shift inv e h1 h2 h3 h4
    simp only [loadProductsFromToeat, h1, h2, h3, h4]

/-- Witness for `loader_propagates_step_errors`: a load cycle whose
authentication step fails with a 403 settles with exactly that error. -/
theorem loader_propagates_step_errors_witness :
    loadProductsFromToeat
      { authRun := fun _ => Except.error (JsError.toteat
          ⟨"Authentication failed: Forbidden", some 403, none⟩),
        shiftRun := fun _ _ => Except.ok ⟨true, none, none⟩,
        inventoryRun := fun _ _ => Except.ok [],
        productsRun := fun _ _ => Except.ok [] } =
      Except.error (some (JsError.toteat
        ⟨"Authentication failed: Forbidden", some 403, none⟩)) :=
  (loader_propagates_step_errors _).1 _ rfl

end DailyAcai
